import Mathlib

/-!
Verification development for the agent control loop of the browser-use
repository. The Python sources under browser_use/agent (service.py,
views.py) are shallowly embedded: pure logic becomes Lean functions,
stateful methods become explicit state passing, exceptions become Except,
and external collaborators (browser session, LLM client, action registry)
become explicit environment records supplied to the embedded functions.
Machine integers do not occur; Python ints are Nat or Int.

Python truthiness conventions used throughout: an Option String is truthy
when it is some nonempty string; an Option (List _) is truthy when it is
some nonempty list; an Option Bool is truthy when it is some true.
-/

/-- Truthiness of a Python `str | None` value: truthy iff present and nonempty. -/
def strTruthy : Option String → Bool
  | none => false
  | some s => !s.isEmpty

/-- Truthiness of a Python `bool | None` value: truthy iff `True`. -/
def optBoolTruthy : Option Bool → Bool
  | none => false
  | some b => b

/-- Truthiness of a Python `list | None` value: truthy iff present and nonempty. -/
def listTruthy {α : Type} : Option (List α) → Bool
  | none => false
  | some xs => !xs.isEmpty

/-!
ActionResult, from browser_use/agent/views.py. Fields typed `T | None`
become `Option T`; the `metadata: dict | None` field carries arbitrary
observability data and is embedded as an association list of strings.
-/

/-- Embeds the ActionResult pydantic model (views.py). Defaults follow the
source: `is_done: bool | None = False`, `success: bool | None = None`, and
so on. -/
structure ActionResult where
  is_done : Option Bool := some false
  success : Option Bool := none
  error : Option String := none
  attachments : Option (List String) := none
  long_term_memory : Option String := none
  extracted_content : Option String := none
  include_extracted_content_only_once : Bool := false
  metadata : Option (List (String × String)) := none
  include_in_memory : Bool := false
  deriving DecidableEq, Repr

/-- Error message raised by ActionResult.validate_success_requires_done. -/
def successRequiresDoneMsg : String :=
  "success=True can only be set when is_done=True. For regular actions that succeed, leave success as None. Use success=False only for actions that fail."

/-- Embeds construction of an ActionResult: pydantic runs the model
validator validate_success_requires_done (views.py) after the fields are
assigned, raising ValueError when `success is True` and `is_done is not
True`. -/
def mkActionResult (r : ActionResult) : Except String ActionResult :=
  if r.success = some true ∧ r.is_done ≠ some true then
    Except.error successRequiresDoneMsg
  else
    Except.ok r

/-!
The consecutive-failure counter update of Agent._post_process
(service.py). The Python guard is
`if self.state.last_result and len(self.state.last_result) == 1 and self.state.last_result[-1].error`.
-/

/-- Python truthiness of the error carried by the last element of a result list. -/
def lastErrorTruthy (rs : List ActionResult) : Bool :=
  match rs.getLast? with
  | none => false
  | some r => strTruthy r.error

/-- Embeds the counter update in Agent._post_process (service.py): the
consecutive-failure counter increments when last_result is truthy, has
length exactly 1, and its last element carries a truthy error; otherwise
it resets to 0. -/
def post_process_failures (consecutive_failures : Nat)
    (last_result : Option (List ActionResult)) : Nat :=
  match last_result with
  | none => 0
  | some rs =>
      if !rs.isEmpty ∧ rs.length = 1 ∧ lastErrorTruthy rs then
        consecutive_failures + 1
      else 0

/-!
Step-level error handling, Agent._handle_step_error (service.py). Errors
reaching the handler are classified: InterruptedError (stop or pause
observed mid-step) versus every other exception. The handler computes a
formatted message, increments the consecutive-failure counter, and stores
a single error ActionResult as the last result. In the source the
increment (`self.state.consecutive_failures += 1`) happens before the
`isinstance(error, InterruptedError)` branch, so it applies to every
error kind.
-/

/-- Exceptions that can escape a step phase, as seen by Agent._handle_step_error. -/
inductive StepErr where
  | interrupted (msg : String)
  | other (msg : String)
  deriving DecidableEq, Repr

/-- Python substring containment, as used by the `in` checks of
Agent._handle_step_error. -/
def pyContains (needle : List Char) : List Char → Bool
  | [] => needle.isEmpty
  | c :: t => needle.isPrefixOf (c :: t) || pyContains needle t

/-- Embeds the message selection of Agent._handle_step_error: an
InterruptedError is reported as a mid-step interruption (exception
objects are always truthy, so the dash suffix is always appended); a
message mentioning an unparseable response gets the JSON format hint
appended; any other error keeps the formatted message of
AgentError.format_error (which, with tracing off, is the string form of
the exception). -/
def stepErrorMessage : StepErr → String
  | StepErr.interrupted m => "The agent was interrupted mid-step - " ++ m
  | StepErr.other m =>
      if pyContains "Could not parse response".toList m.toList ||
         pyContains "tool_use_failed".toList m.toList then
        m ++ "\n\nReturn a valid JSON object with the required fields."
      else m

/-- Mutable agent state touched by the embedded step machinery, from
AgentState (views.py): the monotone step counter (default 1), the
consecutive-failure counter, and the cached results of the last step. -/
structure AgentStateE where
  n_steps : Nat := 1
  consecutive_failures : Nat := 0
  last_result : Option (List ActionResult) := none
  deriving DecidableEq, Repr

/-- Embeds Agent._handle_step_error (service.py): increments the
consecutive-failure counter unconditionally and replaces last_result with
a single ActionResult carrying the formatted error message. -/
def handle_step_error (s : AgentStateE) (e : StepErr) : AgentStateE :=
  { s with
    consecutive_failures := s.consecutive_failures + 1,
    last_result := some [{ error := some (stepErrorMessage e) }] }

/-!
The action model. The concrete ActionModel classes are generated at run
time from the tool registry (browser_use/tools/registry/views.py, outside
the embedded sources), so the embedding records exactly the observations
the agent code makes of an action: the keys of
`model_dump(exclude_unset=True)`, the value of its `done` entry when that
entry is present and not None, the element index returned by
`get_index()`, and whether the full `model_dump()` is the empty dict.
-/

/-- Parameters of a synthesized `done` action, as written by
Agent._get_model_output_with_retry (service.py): a success flag and a text. -/
structure DoneParams where
  success : Bool
  text : String
  deriving DecidableEq, Repr

/-- Abstract view of one ActionModel instance, through the methods the
agent code calls on it (the concrete class is registry-generated). -/
structure ActionModelE where
  dump_keys : List String := []
  doneParams : Option DoneParams := none
  getIndex : Option Nat := none
  fullDumpEmpty : Bool := false
  deriving DecidableEq, Repr

/-- Name used for logging an action: the first key of its
`model_dump(exclude_unset=True)`, or `unknown` when the dump is empty
(service.py, multi_act and its get_remaining_actions_str helper). -/
def actionName (a : ActionModelE) : String :=
  match a.dump_keys with
  | [] => "unknown"
  | k :: _ => k

/-- Embeds AgentOutput (views.py): optional reasoning fields plus the
ordered action list. -/
structure AgentOutputE where
  thinking : Option String := none
  evaluation_previous_goal : Option String := none
  memory : Option String := none
  next_goal : Option String := none
  action : List ActionModelE := []
  deriving DecidableEq, Repr

/-!
The LLM round-trip with retry, Agent._get_model_output_with_retry
(service.py). The oracle call itself is external; it is embedded as a
function from the message list to an AgentOutputE. The embedding also
returns the list of message lists actually sent, so that theorems can
speak about the retry being performed with the added clarification
message.
-/

/-- Messages exchanged with the LLM, by role. -/
inductive MsgE where
  | system (content : String)
  | user (content : String)
  | assistant (content : String)
  deriving DecidableEq, Repr

/-- The clarification message added before the retry in
Agent._get_model_output_with_retry (service.py). -/
def clarificationMessage : MsgE :=
  MsgE.user "You forgot to return an action. Please respond with a valid JSON action according to the expected schema with your assessment and next actions."

/-- The safe no-op action synthesized when the retry still returns no
action (service.py): a fresh ActionModel whose `done` attribute is set to
success False with an explanatory text. -/
def noopDoneAction : ActionModelE :=
  { dump_keys := ["done"],
    doneParams := some { success := false, text := "No next action returned by LLM!" },
    getIndex := none,
    fullDumpEmpty := false }

/-- First emptiness test in Agent._get_model_output_with_retry:
`not model_output.action or not isinstance(model_output.action, list) or all(action.model_dump() == {} for action in model_output.action)`.
The isinstance disjunct is vacuous in the embedding because the field is
always a list. -/
def emptyActionOutput (out : AgentOutputE) : Bool :=
  out.action.isEmpty || out.action.all (fun a => a.fullDumpEmpty)

/-- Embeds Agent._get_model_output_with_retry (service.py). Returns the
final AgentOutputE together with the message lists sent to the oracle, in
order. On an empty first response it retries once with the clarification
message appended; if the retry is still empty it overwrites the action
list with the single synthesized done action. The function is total: this
path raises no exception. -/
def get_model_output_with_retry (oracle : List MsgE → AgentOutputE)
    (input_messages : List MsgE) : AgentOutputE × List (List MsgE) :=
  let m1 := oracle input_messages
  if emptyActionOutput m1 then
    let retry_messages := input_messages ++ [clarificationMessage]
    let m2 := oracle retry_messages
    if emptyActionOutput m2 then
      ({ m2 with action := [noopDoneAction] }, [input_messages, retry_messages])
    else
      (m2, [input_messages, retry_messages])
  else
    (m1, [input_messages])

/-!
Step finalization and the step pipeline, Agent.step and its phase helpers
(service.py). The prepare, decide and act phases call external
collaborators; they are embedded as an environment record whose fields
give each phase outcome. Agent.step wraps the phases in
try / except Exception / finally: every exception lands in
_handle_step_error, and _finalize always runs afterwards.
-/

/-- Embeds Agent._finalize (service.py): when last_result is falsy the
method returns before doing anything, in particular before the step
counter increment at its end; otherwise the history item is appended
(when a browser state exists) and `n_steps` increments by one. History
contents are tracked by other parts of this development; here only the
counter effect matters. -/
def finalize (s : AgentStateE) : AgentStateE :=
  if listTruthy s.last_result then
    { s with n_steps := s.n_steps + 1 }
  else s

/-- Outcomes of the three externally-backed phases of one step: prepare
(browser state fetch and message assembly), decide (the LLM call), act
(multi_act on the decided actions). -/
structure StepEnv where
  prepare : Except StepErr Unit
  decide : Except StepErr AgentOutputE
  act : List ActionModelE → Except StepErr (List ActionResult)

/-- Embeds Agent.step (service.py) for an attempt that is not cancelled:
run the phases in order, route any exception through _handle_step_error,
then always run _finalize. On the success path _execute_actions stores
the results and _post_process updates the consecutive-failure counter. -/
def stepFn (env : StepEnv) (s0 : AgentStateE) : AgentStateE :=
  match env.prepare with
  | Except.error e => finalize (handle_step_error s0 e)
  | Except.ok _ =>
    match env.decide with
    | Except.error e => finalize (handle_step_error s0 e)
    | Except.ok out =>
      match env.act out.action with
      | Except.error e => finalize (handle_step_error s0 e)
      | Except.ok rs =>
        let s1 := { s0 with last_result := some rs }
        finalize { s1 with
          consecutive_failures := post_process_failures s1.consecutive_failures s1.last_result }

/-- Where the asyncio cancellation raised by the step-level timeout of
Agent.run lands inside Agent.step. CancelledError is not an Exception in
Python 3, so _handle_step_error never sees it; the finally clause still
runs _finalize because asyncio delivers the cancellation once. -/
inductive CancelPoint where
  | duringPrepare
  | duringDecide
  | duringAct
  | duringPostProcess
  deriving DecidableEq, Repr

/-- Embeds a step attempt cut short by the step timeout: the state
mutations completed before the cancellation point are kept, then
_finalize runs from the finally clause. last_result is only assigned once
multi_act has returned, so a cancellation up to and including the act
phase leaves it untouched. -/
def stepCancelled (env : StepEnv) (s0 : AgentStateE) (p : CancelPoint) : AgentStateE :=
  match p with
  | CancelPoint.duringPrepare => finalize s0
  | CancelPoint.duringDecide => finalize s0
  | CancelPoint.duringAct => finalize s0
  | CancelPoint.duringPostProcess =>
    match env.prepare, env.decide with
    | Except.ok _, Except.ok out =>
      match env.act out.action with
      | Except.ok rs => finalize { s0 with last_result := some rs }
      | Except.error _ => finalize s0
    | _, _ => finalize s0

/-- Embeds the `except TimeoutError` branch of the step loop in Agent.run
(service.py): the run loop increments the consecutive-failure counter and
replaces last_result with a single timeout error result; it does not
touch the step counter. -/
def run_step_timeout_handler (s : AgentStateE) (step_timeout : Nat) (step : Nat) : AgentStateE :=
  { s with
    consecutive_failures := s.consecutive_failures + 1,
    last_result := some [{ error := some ("Step " ++ toString (step + 1) ++ " timed out after " ++ toString step_timeout ++ " seconds") }] }

/-!
The batch action executor, Agent.multi_act (service.py). The browser
session and the tool registry are external; the embedding supplies them
through MultiActEnv: the selector map cached when the batch begins, the
fresh selector map observed before the index-based action at each
position, the stop/pause flag polled before every action, and the result
(or exception) of invoking each action. Element fingerprints
(parent_branch_hash for staleness checks, element_hash for replay
rebinding) are Nat.
-/

/-- The two content hashes the agent reads off a DOM element: the
parent-branch hash used for batch staleness checks and the element hash
used for replay rebinding. The DOM element type itself lives outside the
embedded sources. -/
structure DomElem where
  element_hash : Nat
  parent_branch_hash : Nat
  deriving DecidableEq, Repr

/-- A selector map: element index to DOM element, as an association list
in dict iteration order. -/
abbrev SelectorMap := List (Nat × DomElem)

/-- Dictionary lookup on a selector map (first binding of the index wins). -/
def selLookup (m : SelectorMap) (idx : Nat) : Option DomElem :=
  (m.find? (fun p => p.1 = idx)).map (fun p => p.2)

/-- Whether every parent-branch hash occurring in `xs` also occurs in
`ys`: the set inclusion `new_element_hashes.issubset(cached_element_hashes)`
of multi_act. -/
def hashSubset (xs ys : SelectorMap) : Bool :=
  xs.all (fun p => ys.any (fun q => q.2.parent_branch_hash = p.2.parent_branch_hash))

/-- External collaborators of one multi_act run. -/
structure MultiActEnv where
  cached : SelectorMap
  fresh : Nat → SelectorMap
  stopped_or_paused : Bool
  act : Nat → Except String ActionResult

/-- Comma-separated names of the actions from position `i` on, the
get_remaining_actions_str helper inside multi_act (service.py). -/
def remainingActionsStr (actions : List ActionModelE) (i : Nat) : String :=
  String.intercalate ", " ((actions.drop i).map actionName)

/-- The synthetic result appended when the targeted element identity
changed between the cached and the fresh observation (service.py,
multi_act). -/
def pageChangedResult (actions : List ActionModelE) (i : Nat) : ActionResult :=
  let msg := "Page changed after action: actions " ++ remainingActionsStr actions i ++ " are not yet executed"
  { extracted_content := some msg, include_in_memory := true, long_term_memory := some msg }

/-- The synthetic result appended when new elements appeared since the
batch began (service.py, multi_act). -/
def newAppearedResult (actions : List ActionModelE) (i : Nat) (total : Nat) : ActionResult :=
  let msg := "Something new appeared after action " ++ toString i ++ " / " ++ toString total ++ ": actions " ++ remainingActionsStr actions i ++ " were not executed"
  { extracted_content := some msg, include_in_memory := true, long_term_memory := some msg }

/-- Python enumerate over a list, starting at a given index. -/
def enumFromE {α : Type} : Nat → List α → List (Nat × α)
  | _, [] => []
  | i, a :: as => (i, a) :: enumFromE (i + 1) as

/-- The DOM synchronization checks run before an index-based action at
position i > 0 (service.py, multi_act): when the parent-branch hash of
the targeted index differs between the cached and a fresh selector map
(including one side absent), or when new hashes appeared and the caller
did not disable the check, the corresponding synthetic stop result is
produced. -/
def staleCheck (env : MultiActEnv) (check_for_new_elements : Bool)
    (actions : List ActionModelE) (total : Nat) (i : Nat) (a : ActionModelE) :
    Option ActionResult :=
  if i ≠ 0 then
    match a.getIndex with
    | some idx =>
      let newMap := env.fresh i
      let origHash : Option Nat := (selLookup env.cached idx).map (fun e => e.parent_branch_hash)
      let newHash : Option Nat := (selLookup newMap idx).map (fun e => e.parent_branch_hash)
      if origHash ≠ newHash then some (pageChangedResult actions i)
      else if check_for_new_elements ∧ ¬ hashSubset newMap env.cached then
        some (newAppearedResult actions i total)
      else none
    | none => none
  else none

/-- Loop body of Agent.multi_act over the enumerated actions. First
component: the surviving results (an exception from the tool call
propagates, discarding the partial list, as in the source where `raise e`
aborts the method). Second component: the positions whose action was
actually invoked, kept even across an exception so that theorems can state
which actions ran. -/
def multi_act_loop (env : MultiActEnv) (check_for_new_elements : Bool)
    (actions : List ActionModelE) (total : Nat) :
    List (Nat × ActionModelE) → Except String (List ActionResult) × List Nat
  | [] => (Except.ok [], [])
  | (i, a) :: rest =>
    if 0 < i ∧ a.doneParams ≠ none then
      (Except.ok [], [])
    else
      match staleCheck env check_for_new_elements actions total i a with
      | some r => (Except.ok [r], [])
      | none =>
        if env.stopped_or_paused then (Except.error "InterruptedError", [])
        else
          match env.act i with
          | Except.error e => (Except.error e, [i])
          | Except.ok r =>
            if optBoolTruthy r.is_done || strTruthy r.error || i = total - 1 then
              (Except.ok [r], [i])
            else
              match multi_act_loop env check_for_new_elements actions total rest with
              | (Except.error e, inv) => (Except.error e, i :: inv)
              | (Except.ok rs, inv) => (Except.ok (r :: rs), i :: inv)

/-- Embeds Agent.multi_act (service.py). -/
def multi_act (env : MultiActEnv) (actions : List ActionModelE)
    (check_for_new_elements : Bool := true) :
    Except String (List ActionResult) × List Nat :=
  multi_act_loop env check_for_new_elements actions actions.length (enumFromE 0 actions)

/-!
History replay, Agent.rerun_history, Agent._execute_history_step and
Agent._update_action_indices (service.py). A replayed step rebinds each
historical action to the current element sharing the same element hash,
then delegates to multi_act; the surrounding retry loop in rerun_history
catches every exception uniformly.
-/

/-- The slice of a persisted DOMInteractedElement that replay rebinding
reads: its element hash. -/
structure DomInteracted where
  element_hash : Nat
  deriving DecidableEq, Repr

/-- External state consulted by one replay attempt: the current selector
map observed by _execute_history_step, and the environment of the inner
multi_act call. -/
structure ReplayEnv where
  selector_map : SelectorMap
  mact : MultiActEnv

/-- The slice of a persisted history item that replay reads: the decided
actions (none when the step had no model output) and the recorded
interacted elements. -/
structure ReplayItemE where
  model_output : Option (List ActionModelE)
  interacted : List (Option DomInteracted)

/-- Embeds Agent._update_action_indices (service.py): with no historical
element or an empty current selector map the action passes through
unchanged; otherwise the first current element with the same element hash
rebinds the action index, and absence of any match returns None. -/
def update_action_indices (historical : Option DomInteracted)
    (a : ActionModelE) (selector_map : SelectorMap) : Option ActionModelE :=
  match historical with
  | none => some a
  | some h =>
    if selector_map.isEmpty then some a
    else
      match selector_map.find? (fun p => p.2.element_hash = h.element_hash) with
      | none => none
      | some p => some { a with getIndex := some p.1 }

/-- The ValueError message raised by Agent._execute_history_step when an
action cannot be rebound. -/
def couldNotFindMsg (i : Nat) : String :=
  "Could not find matching element " ++ toString i ++ " in current page"

/-- The rebinding loop of Agent._execute_history_step: each action is
updated against the current state; a missing interacted-element entry is
a Python IndexError, and a failed rebind raises the ValueError of the
source. -/
def rebindActions (selector_map : SelectorMap)
    (interacted : List (Option DomInteracted)) :
    Nat → List ActionModelE → Except String (List ActionModelE)
  | _, [] => Except.ok []
  | i, a :: as =>
    match interacted.get? i with
    | none => Except.error "IndexError: list index out of range"
    | some h =>
      match update_action_indices h a selector_map with
      | none => Except.error (couldNotFindMsg i)
      | some ua =>
        match rebindActions selector_map interacted (i + 1) as with
        | Except.error e => Except.error e
        | Except.ok uas => Except.ok (ua :: uas)

/-- Embeds Agent._execute_history_step (service.py): observe the current
state, reject an item without model output, rebind every action, then run
multi_act (with its default new-element check). -/
def execute_history_step (env : ReplayEnv) (item : ReplayItemE) :
    Except String (List ActionResult) :=
  match item.model_output with
  | none => Except.error "Invalid state or model output"
  | some actions =>
    match rebindActions env.selector_map item.interacted 0 actions with
    | Except.error e => Except.error e
    | Except.ok updated => (multi_act env.mact updated true).1

/-- Outcome of replaying one history item in Agent.rerun_history. -/
inductive ReplayOutcome where
  | skippedNoAction
  | completed (rs : List ActionResult)
  | failuresSkipped (msg : String)
  | raised (appended : ActionResult) (msg : String)
  deriving DecidableEq, Repr

/-- The retry loop of Agent.rerun_history (service.py) for one item,
counting the attempts actually executed. Each attempt sees the
environment of its attempt index (the page may change between attempts).
On an exception the retry counter increments; at the configured bound the
failure is either skipped (skip_failures) or recorded as an appended error
result together with a raised RuntimeError. -/
def rerun_item_attempts (envs : Nat → ReplayEnv) (item : ReplayItemE)
    (max_retries : Nat) (skip_failures : Bool) (step_name : String) :
    Nat → Nat → ReplayOutcome × Nat
  | _, 0 => (ReplayOutcome.failuresSkipped "", 0)
  | k, left + 1 =>
    match execute_history_step (envs k) item with
    | Except.ok rs => (ReplayOutcome.completed rs, 1)
    | Except.error e =>
      if left = 0 then
        let msg := step_name ++ " failed after " ++ toString max_retries ++ " attempts: " ++ e
        if skip_failures then (ReplayOutcome.failuresSkipped msg, 1)
        else (ReplayOutcome.raised { error := some msg } msg, 1)
      else
        match rerun_item_attempts envs item max_retries skip_failures step_name (k + 1) left with
        | (o, n) => (o, n + 1)

/-- Embeds the per-item processing of Agent.rerun_history (service.py):
an item without model output or actions is skipped with a synthetic error
result; otherwise the retry loop runs with the configured bound. -/
def rerun_history_item (envs : Nat → ReplayEnv) (item : ReplayItemE)
    (max_retries : Nat) (skip_failures : Bool) (step_name : String) :
    ReplayOutcome × Nat :=
  match item.model_output with
  | none => (ReplayOutcome.skippedNoAction, 0)
  | some [] => (ReplayOutcome.skippedNoAction, 0)
  | some _ => rerun_item_attempts envs item max_retries skip_failures step_name 0 max_retries

/-!
URL shortening, Agent._replace_urls_in_text and its nested replace_url
(service.py). The embedding works on the character list of one URL
matched by URL_PATTERN; the surrounding regex substitution applies it to
each match. The hash suffix comes from hashlib.md5 (Python standard
library): it is supplied as a function parameter, and a concrete
deterministic stand-in with the same output length is provided for
closed-form evaluation. The theorems depend only on the output length.
-/

/-- First index of a character in a list, mirroring Python str.find
(which the source compares against -1). -/
def pyFindChar (c : Char) : List Char → Option Nat
  | [] => none
  | x :: xs => if x = c then some 0 else (pyFindChar c xs).map (fun n => n + 1)

/-- Position where the query/fragment portion of a URL starts: the
earliest of the first question mark and the first hash sign, defaulting
to the full length (service.py, replace_url). -/
def afterPathStart (u : List Char) : Nat :=
  let s0 := u.length
  let s1 := match pyFindChar '?' u with
    | some k => min s0 k
    | none => s0
  match pyFindChar '#' u with
  | some k => min s1 k
  | none => s1

/-- Lower-case hexadecimal digit. -/
def hexDigitChar (n : Nat) : Char :=
  if n < 10 then Char.ofNat (48 + n) else Char.ofNat (87 + n)

/-- Seven hexadecimal characters of a number below 16 to the 7th, most
significant digit first. -/
def toHex7 (n : Nat) : List Char :=
  (List.range 7).map (fun i => hexDigitChar (n / 16 ^ (6 - i) % 16))

/-- Deterministic stand-in for `hashlib.md5(x).hexdigest()[:7]` used by
replace_url. The real digest lives outside the embedded sources; every
theorem below depends only on the fact that the output has length 7,
which this stand-in shares with the original. -/
def md5Hex7 (s : List Char) : List Char :=
  toHex7 (s.foldl (fun h c => (h * 31 + c.toNat) % 16 ^ 7) 5381)

/-- Embeds the nested replace_url of Agent._replace_urls_in_text
(service.py) on one matched URL. Returns the replacement text and, when a
shortened form is used, the mapping entry shortened to original that the
method records. The query/fragment portion is everything from the first
question mark or hash sign on; a portion within the configured limit is
kept, otherwise the portion is truncated at the limit and suffixed with
an ellipsis and the 7-character digest of the whole portion, and this
shortened form is used only when it is strictly shorter than the
original. -/
def replace_url (limit : Nat) (md5hex7 : List Char → List Char) (u : List Char) :
    List Char × Option (List Char × List Char) :=
  let start := afterPathStart u
  let base_url := u.take start
  let after_path := u.drop start
  if after_path.length ≤ limit then (u, none)
  else
    if after_path.isEmpty then (u, none)
    else
      let truncated := after_path.take limit
      let short_hash := md5hex7 after_path
      let shortened := base_url ++ truncated ++ String.toList "..." ++ short_hash
      if shortened.length < u.length then (shortened, some (shortened, u))
      else (u, none)

/-!
Saving history to disk, Agent.save_history (service.py) calling
AgentHistoryList.save_to_file (views.py). The call passes a sensitive_data
keyword argument, but save_to_file declares only the filepath parameter,
so CPython raises TypeError while binding the call, before the function
body (and hence any file write) runs. The binding step is embedded
explicitly.
-/

/-- CPython call binding for a function without *args or **kwargs:
positional arguments must fit the parameter list, every keyword argument
must name a parameter, and a keyword must not collide with a positional
binding. TypeError is raised before the function body executes. -/
def bindPyArgs (params : List String) (posCount : Nat) (kwargs : List String) :
    Except String Unit :=
  if params.length < posCount then
    Except.error "TypeError: too many positional arguments"
  else
    match kwargs.find? (fun k => !(params.contains k)) with
    | some k => Except.error ("TypeError: got an unexpected keyword argument " ++ k)
    | none =>
      match kwargs.find? (fun k => (params.take posCount).contains k) with
      | some k => Except.error ("TypeError: got multiple values for argument " ++ k)
      | none => Except.ok ()

/-- The parameters of AgentHistoryList.save_to_file (views.py), after
self: only the file path. -/
def save_to_file_params : List String := ["filepath"]

/-- Effect of the body of AgentHistoryList.save_to_file once entered: the
serialized history is written to the given path. The returned list names
the files written. -/
def save_to_file_body (filepath : String) : List String := [filepath]

/-- Embeds Agent.save_history (service.py): default the path when falsy,
then call save_to_file with one positional argument and the
sensitive_data keyword argument. The result is the list of files written,
or the TypeError raised during call binding. -/
def save_history (file_path : Option String) : Except String (List String) :=
  let fp := match file_path with
    | none => "AgentHistory.json"
    | some p => if p.isEmpty then "AgentHistory.json" else p
  match bindPyArgs save_to_file_params 1 ["sensitive_data"] with
  | Except.error e => Except.error e
  | Except.ok _ => Except.ok (save_to_file_body fp)

/-!
History persistence, AgentHistory.model_dump, AgentHistoryList.model_dump,
AgentHistoryList.load_from_file and AgentHistoryList._migrate_legacy_format
(views.py). JSON text encoding and decoding (json.dump and json.load,
Python standard library) are mutually inverse on the produced data, so
serialization is embedded at the dictionary level: a dump type mirrors
the dictionary shape, with an outer Option meaning key present or absent
where the source distinguishes the two. Classes defined outside the
embedded sources are modelled as follows. Modelled from the spec:
TabInfo, BrowserStateHistory and its to_dict, DOMInteractedElement and
the usage summary are absent from src; they follow the data-model section
of the specification (snapshot reference with url, title, tab list,
referenced-element identities and a screenshot path) and the field lists
that the migration pass in views.py itself names. The registry-generated
ActionModel is represented by its exclude-none dump (an association
list), with its external validate inverse to its dump. Times in
StepMetadata are embedded as integers standing for JSON numbers.
-/

/-- Modelled from the spec: one entry of the tab list in an environment
snapshot reference, in the current field format (tab_id, not the legacy
page_id). TabInfo itself is outside the embedded sources. -/
structure TabInfoH where
  tab_id : String
  url : String
  title : String
  parent_tab_id : Option String := none
  deriving DecidableEq, Repr

/-- Modelled from the spec: bounding box of a recorded element; the
concrete DOM types are outside the embedded sources. -/
structure DOMRectH where
  x : Int
  y : Int
  width : Int
  height : Int
  deriving DecidableEq, Repr

/-- Modelled from the spec: a recorded interacted element, with exactly
the required fields that the migration pass in views.py enumerates.
DOMInteractedElement itself is outside the embedded sources. -/
structure InteractedH where
  node_id : Int
  backend_node_id : Int
  frame_id : Option String
  node_type : Int
  node_value : String
  node_name : String
  bounds : Option DOMRectH
  x_path : String
  element_hash : Int
  deriving DecidableEq, Repr

/-- Modelled from the spec: the environment snapshot reference stored in
a step record (BrowserStateHistory, outside the embedded sources). -/
structure BrowserStateHistoryH where
  url : String
  title : String
  tabs : List TabInfoH
  interacted_element : List (Option InteractedH)
  screenshot_path : Option String
  deriving DecidableEq, Repr

/-- Embeds StepMetadata (views.py); the two float timestamps are taken as
integer-valued JSON numbers. -/
structure StepMetadataH where
  step_start_time : Int
  step_end_time : Int
  step_number : Int
  deriving DecidableEq, Repr

/-- The exclude-none dump of one registry-generated action, as an
association list; the action classes are outside the embedded sources and
their validation is the inverse of this dump. -/
abbrev ActionDumpH := List (String × String)

/-- The in-memory AgentOutput of a persisted step (views.py), with its
actions represented by their dumps. -/
structure AgentOutputH where
  thinking : Option String := none
  evaluation_previous_goal : Option String
  memory : Option String
  next_goal : Option String
  action : List ActionDumpH
  deriving DecidableEq, Repr

/-- Embeds AgentHistory (views.py): one persisted step record. -/
structure AgentHistoryH where
  model_output : Option AgentOutputH
  result : List ActionResult
  state : BrowserStateHistoryH
  metadata : Option StepMetadataH
  deriving DecidableEq, Repr

/-- Embeds AgentHistoryList (views.py); the usage summary is an external
aggregate, represented by a placeholder value. -/
structure AgentHistoryListH where
  history : List AgentHistoryH
  usage : Option Int := none
  deriving DecidableEq, Repr

/-!
Dump shapes. An outer Option encodes key presence where the migration
pass distinguishes a missing key from a null value.
-/

/-- Dictionary form of one tab entry; legacy files may carry page_id and
parent_page_id instead of tab_id and parent_tab_id. -/
structure TabDump where
  tab_id : Option String := none
  page_id : Option Int := none
  parent_tab_id : Option (Option String) := none
  parent_page_id : Option (Option Int) := none
  url : String
  title : String
  deriving DecidableEq, Repr

/-- Dictionary form of a recorded interacted element; every field is
optional because legacy files may omit the current required fields, and
legacy files may carry tag_name and xpath keys. -/
structure InteractedDump where
  node_id : Option Int := none
  backend_node_id : Option Int := none
  frame_id : Option (Option String) := none
  node_type : Option Int := none
  node_value : Option String := none
  node_name : Option String := none
  bounds : Option (Option DOMRectH) := none
  x_path : Option String := none
  element_hash : Option Int := none
  tag_name : Option String := none
  xpath : Option String := none
  deriving DecidableEq, Repr

/-- Dictionary form of BrowserStateHistory.to_dict. Modelled from the
spec: the snapshot reference serializes its url, title, tabs, interacted
elements and screenshot path. -/
structure StateDumpH where
  url : String
  title : String
  tabs : List TabDump
  interacted_element : Option (List (Option InteractedDump))
  screenshot_path : Option String
  deriving DecidableEq, Repr

/-- Dictionary form of the model_output entry written by
AgentHistory.model_dump (views.py): the three context fields are always
present (possibly null), thinking only when set, and the actions keep
their dumps. -/
structure AgentOutputDumpH where
  evaluation_previous_goal : Option String
  memory : Option String
  next_goal : Option String
  action : List ActionDumpH
  thinking : Option String := none
  deriving DecidableEq, Repr

/-- Dictionary form of one step record as written by
AgentHistory.model_dump (views.py). The result entries reuse the
ActionResult record: model_dump(exclude_none=True) omits exactly the
None-valued fields, so a dump is the same record with none meaning an
omitted key (a present-but-null key cannot arise from this dump). -/
structure HistoryItemDump where
  model_output : Option AgentOutputDumpH
  result : List ActionResult
  state : StateDumpH
  metadata : Option StepMetadataH
  deriving DecidableEq, Repr

/-- Dictionary form of the whole file as written by
AgentHistoryList.model_dump (views.py): only the history key; the usage
summary is not serialized. -/
structure HistoryListDump where
  history : List HistoryItemDump
  deriving DecidableEq, Repr

/-- Modelled from the spec: serialization of one tab entry, current
format. -/
def tabToDict (t : TabInfoH) : TabDump :=
  { tab_id := some t.tab_id,
    parent_tab_id := some t.parent_tab_id,
    url := t.url,
    title := t.title }

/-- Modelled from the spec: serialization of one recorded interacted
element, with all current required fields present and no legacy keys. -/
def interactedToDump (e : InteractedH) : InteractedDump :=
  { node_id := some e.node_id,
    backend_node_id := some e.backend_node_id,
    frame_id := some e.frame_id,
    node_type := some e.node_type,
    node_value := some e.node_value,
    node_name := some e.node_name,
    bounds := some e.bounds,
    x_path := some e.x_path,
    element_hash := some e.element_hash }

/-- Modelled from the spec: BrowserStateHistory.to_dict. -/
def stateToDict (s : BrowserStateHistoryH) : StateDumpH :=
  { url := s.url,
    title := s.title,
    tabs := s.tabs.map tabToDict,
    interacted_element := some (s.interacted_element.map (fun o => o.map interactedToDump)),
    screenshot_path := s.screenshot_path }

/-- Embeds the model_output part of AgentHistory.model_dump (views.py). -/
def agentOutputDump (o : AgentOutputH) : AgentOutputDumpH :=
  { evaluation_previous_goal := o.evaluation_previous_goal,
    memory := o.memory,
    next_goal := o.next_goal,
    action := o.action,
    thinking := o.thinking }

/-- Embeds AgentHistory.model_dump (views.py). -/
def agent_history_dump (h : AgentHistoryH) : HistoryItemDump :=
  { model_output := h.model_output.map agentOutputDump,
    result := h.result,
    state := stateToDict h.state,
    metadata := h.metadata }

/-- Embeds AgentHistoryList.model_dump (views.py): the serialized file
holds only the list of step-record dumps. -/
def agent_history_list_dump (h : AgentHistoryListH) : HistoryListDump :=
  { history := h.history.map agent_history_dump }

/-- Left pad with zeros to the given width. -/
def padZeros (s : String) (w : Nat) : String :=
  String.mk (List.replicate (w - s.length) '0') ++ s

/-- Python format string 04d applied to an int, as used for legacy page
ids in _migrate_legacy_format (views.py). -/
def formatInt04 (n : Int) : String :=
  if n < 0 then "-" ++ padZeros (toString (-n)) 3 else padZeros (toString n) 4

/-- Deterministic stand-in for the Python builtin hash on strings, used
only by the legacy-element branch of the migration pass (the real value
is seed dependent; no theorem below depends on it). -/
def pyHashStr (s : String) : Int :=
  Int.ofNat (s.toList.foldl (fun h c => (h * 131 + c.toNat) % (2 ^ 31)) 0)

/-- Embeds the tab migration of _migrate_legacy_format (views.py): a
page_id with no tab_id is popped and rewritten as a zero-padded tab_id,
and likewise for parent_page_id. -/
def migrateTab (t : TabDump) : TabDump :=
  let t1 :=
    if t.page_id ≠ none ∧ t.tab_id = none then
      { t with page_id := none, tab_id := some (formatInt04 (t.page_id.getD 0)) }
    else t
  if t1.parent_page_id ≠ none ∧ t1.parent_tab_id = none then
    match t1.parent_page_id with
    | some (some p) => { t1 with parent_page_id := none, parent_tab_id := some (some (formatInt04 p)) }
    | some none => { t1 with parent_page_id := none, parent_tab_id := some none }
    | none => t1
  else t1

/-- Whether an interacted-element dictionary misses any of the required
fields enumerated by _migrate_legacy_format (views.py). -/
def interactedMissingRequired (e : InteractedDump) : Bool :=
  e.node_id = none ∨ e.backend_node_id = none ∨ e.frame_id = none ∨
  e.node_type = none ∨ e.node_value = none ∨ e.node_name = none ∨
  e.bounds = none ∨ e.x_path = none ∨ e.element_hash = none

/-- Embeds the element migration of _migrate_legacy_format (views.py):
when required fields are missing, each absent field receives its legacy
default (node_name from an upper-cased tag_name, x_path from a legacy
xpath key, element_hash from a hash of xpath and tag_name), and a legacy
xpath key is dropped when x_path is present afterwards. -/
def migrateElement (e : InteractedDump) : InteractedDump :=
  if interactedMissingRequired e then
    let e := if e.node_id = none then { e with node_id := some 0 } else e
    let e := if e.backend_node_id = none then { e with backend_node_id := some 0 } else e
    let e := if e.frame_id = none then { e with frame_id := some none } else e
    let e := if e.node_type = none then { e with node_type := some 1 } else e
    let e := if e.node_value = none then { e with node_value := some "" } else e
    let e := if e.node_name = none then
        { e with node_name := some (e.tag_name.getD "div").toUpper } else e
    let e := if e.bounds = none then { e with bounds := some none } else e
    let e := if e.x_path = none ∧ e.xpath ≠ none then { e with x_path := e.xpath }
      else if e.x_path = none then { e with x_path := some "" } else e
    let e := if e.element_hash = none then
        { e with element_hash := some (pyHashStr (e.xpath.getD "" ++ e.tag_name.getD "")) } else e
    if e.xpath ≠ none ∧ e.x_path ≠ none then { e with xpath := none } else e
  else e

/-- Embeds the per-record part of _migrate_legacy_format (views.py):
migrate every tab, and every interacted-element dictionary when the key
is present. -/
def migrateItem (h : HistoryItemDump) : HistoryItemDump :=
  let st := h.state
  let st := { st with tabs := st.tabs.map migrateTab }
  let st :=
    match st.interacted_element with
    | none => st
    | some els => { st with interacted_element := some (els.map (fun o => o.map migrateElement)) }
  { h with state := st }

/-- Embeds AgentHistoryList._migrate_legacy_format (views.py). -/
def migrate_legacy_format (d : HistoryListDump) : HistoryListDump :=
  { history := d.history.map migrateItem }

/-- Validate a list elementwise, propagating the first error: the effect
of pydantic validating a list field. -/
def mapE {α β : Type} (f : α → Except String β) : List α → Except String (List β)
  | [] => Except.ok []
  | x :: xs =>
    match f x with
    | Except.error e => Except.error e
    | Except.ok y =>
      match mapE f xs with
      | Except.error e => Except.error e
      | Except.ok ys => Except.ok (y :: ys)

/-- Validation of one tab dictionary against the current TabInfo fields.
Modelled from the spec: tab_id is required; a missing parent_tab_id
defaults to null. -/
def validateTab (d : TabDump) : Except String TabInfoH :=
  match d.tab_id with
  | none => Except.error "ValidationError: tab_id field required"
  | some tid =>
    Except.ok { tab_id := tid, url := d.url, title := d.title,
                parent_tab_id := d.parent_tab_id.getD none }

/-- Validation of an interacted-element dictionary. Modelled from the
spec: all required fields of the current format must be present. -/
def validateInteracted (d : InteractedDump) : Except String InteractedH :=
  match d.node_id, d.backend_node_id, d.frame_id, d.node_type, d.node_value,
        d.node_name, d.bounds, d.x_path, d.element_hash with
  | some a, some b, some c, some t, some v, some n, some bd, some x, some h =>
    Except.ok { node_id := a, backend_node_id := b, frame_id := c, node_type := t,
                node_value := v, node_name := n, bounds := bd, x_path := x, element_hash := h }
  | _, _, _, _, _, _, _, _, _ =>
    Except.error "ValidationError: interacted element field required"

/-- Validation of the state dictionary back into the snapshot reference.
Modelled from the spec; an absent interacted_element key (which
load_from_file replaces by null before validating) cannot arise from the
serializer and is rejected here. -/
def validateState (d : StateDumpH) : Except String BrowserStateHistoryH :=
  match mapE validateTab d.tabs with
  | Except.error e => Except.error e
  | Except.ok tabs =>
    match d.interacted_element with
    | none => Except.error "ValidationError: interacted_element field required"
    | some els =>
      match mapE (fun o =>
        match o with
        | none => Except.ok (none : Option InteractedH)
        | some e => (validateInteracted e).map some) els with
      | Except.error e => Except.error e
      | Except.ok ies =>
        Except.ok { url := d.url, title := d.title, tabs := tabs,
                    interacted_element := ies, screenshot_path := d.screenshot_path }

/-- Embeds pydantic validation of one result dictionary back into an
ActionResult (views.py): an absent is_done key takes the default False,
the other optional fields default to None (which the dump encoding
already expresses), and the model validator runs again. -/
def validateActionResultDump (d : ActionResult) : Except String ActionResult :=
  mkActionResult { d with is_done := some (d.is_done.getD false) }

/-- Embeds output_model.model_validate on a model_output dictionary
(views.py, load_from_file): the three context fields and the action dumps
are taken as stored, a missing thinking key defaults to None. -/
def validateOutputDump (d : AgentOutputDumpH) : Except String AgentOutputH :=
  Except.ok { thinking := d.thinking,
              evaluation_previous_goal := d.evaluation_previous_goal,
              memory := d.memory,
              next_goal := d.next_goal,
              action := d.action }

/-- Embeds the per-record loading of AgentHistoryList.load_from_file
(views.py): a truthy model_output dictionary is validated against the
output model, results and state are validated by the pydantic model. -/
def loadHistoryItem (d : HistoryItemDump) : Except String AgentHistoryH :=
  match (match d.model_output with
         | none => Except.ok (none : Option AgentOutputH)
         | some od => (validateOutputDump od).map some) with
  | Except.error e => Except.error e
  | Except.ok mo =>
    match mapE validateActionResultDump d.result with
    | Except.error e => Except.error e
    | Except.ok rs =>
      match validateState d.state with
      | Except.error e => Except.error e
      | Except.ok st => Except.ok { model_output := mo, result := rs, state := st, metadata := d.metadata }

/-- Embeds AgentHistoryList.load_from_file (views.py) from the parsed
dictionary on: run the legacy migration, validate each record, and
rebuild the list model (whose usage field, absent from the dump, takes
its default). -/
def load_history_list (d : HistoryListDump) : Except String AgentHistoryListH :=
  let m := migrate_legacy_format d
  match mapE loadHistoryItem m.history with
  | Except.error e => Except.error e
  | Except.ok items => Except.ok { history := items, usage := none }

/-!
Theorems. Each claim of the specification review is settled by one
theorem below, with a closed witness where the theorem carries
hypotheses and a closed counterexample where the original claim fails on
the embedded code.
-/

/-- C9: constructing an ActionResult with success True while is_done is
not True fails validation whatever the other fields hold, and on any
successfully constructed ActionResult success True implies is_done
True. -/
theorem actionResult_success_requires_done (r r2 : ActionResult) :
    (r.success = some true ∧ r.is_done ≠ some true →
      mkActionResult r = Except.error successRequiresDoneMsg) ∧
    (mkActionResult r = Except.ok r2 → r2.success = some true → r2.is_done = some true) := by
  constructor
  · intro h
    simp [mkActionResult, h.1, h.2]
  · intro hok hs
    by_cases h : r.success = some true ∧ r.is_done ≠ some true
    · simp [mkActionResult, h.1, h.2] at hok
    · simp only [mkActionResult, if_neg h] at hok
      cases hok
      rcases not_and_or.mp h with h1 | h1
      · exact absurd hs h1
      · exact not_not.mp h1

/-- C9 witness: a concrete rejected construction and a concrete accepted
one on which success True comes with is_done True. -/
theorem actionResult_success_requires_done_witness :
    mkActionResult { success := some true, is_done := some false } = Except.error successRequiresDoneMsg ∧
    ({ success := some true, is_done := some true } : ActionResult).is_done = some true :=
  ⟨(actionResult_success_requires_done { success := some true, is_done := some false } {}).1
      (by exact ⟨rfl, by simp⟩),
   (actionResult_success_requires_done { success := some true, is_done := some true }
      { success := some true, is_done := some true }).2 (by simp [mkActionResult]) rfl⟩

/-- C2: the consecutive-failure counter of _post_process increments by
exactly one on a single result whose error is truthy, resets to zero on a
single result without a truthy error, and resets to zero when the step
yielded more than one result. -/
theorem post_process_consecutive_failures (n : Nat) (r : ActionResult) (rs : List ActionResult) :
    (strTruthy r.error = true → post_process_failures n (some [r]) = n + 1) ∧
    (strTruthy r.error = false → post_process_failures n (some [r]) = 0) ∧
    (1 < rs.length → post_process_failures n (some rs) = 0) := by
  refine ⟨fun h => ?_, fun h => ?_, fun h => ?_⟩
  · simp [post_process_failures, lastErrorTruthy, h]
  · simp [post_process_failures, lastErrorTruthy, h]
  · have hne : rs.length ≠ 1 := by omega
    simp [post_process_failures, hne]

/-- C2 witness: concrete counter updates at a single erroring result, a
single error-free result, and a two-result step. -/
theorem post_process_consecutive_failures_witness :
    strTruthy (some "boom") = true ∧
    post_process_failures 2 (some [{ error := some "boom" }]) = 3 ∧
    post_process_failures 2 (some [{ error := none }]) = 0 ∧
    post_process_failures 2 (some [{ error := some "boom" }, {}]) = 0 :=
  ⟨rfl,
   (post_process_consecutive_failures 2 { error := some "boom" } []).1 rfl,
   ((post_process_consecutive_failures 2 { error := none } []).2.1 rfl),
   ((post_process_consecutive_failures 2 {} [{ error := some "boom" }, {}]).2.2 (by decide))⟩

/-- C1 counterexample: the original claim says an interrupted step does
not count toward the failure budget, but _handle_step_error increments
the consecutive-failure counter before it branches on InterruptedError,
so a state with zero failures that is interrupted ends with one. -/
theorem interrupted_step_counterexample :
    ¬ ((handle_step_error { n_steps := 1, consecutive_failures := 0, last_result := none }
        (StepErr.interrupted "")).consecutive_failures =
       ({ n_steps := 1, consecutive_failures := 0, last_result := none } : AgentStateE).consecutive_failures) := by
  decide

/-- C1 amended: an interrupted step is abandoned through the uniform
error phase, which stores a single interruption ActionResult as the last
result, but the consecutive-failure counter increments by exactly one,
the same as for any other step error. -/
theorem interrupted_step_counts_as_failure (s : AgentStateE) (m : String) :
    (handle_step_error s (StepErr.interrupted m)).consecutive_failures = s.consecutive_failures + 1 ∧
    (handle_step_error s (StepErr.interrupted m)).last_result =
      some [{ error := some (stepErrorMessage (StepErr.interrupted m)) }] :=
  ⟨rfl, rfl⟩

/-- C10: for every file path, Agent.save_history passes the
sensitive_data keyword argument to AgentHistoryList.save_to_file, whose
only parameter is filepath, so CPython raises TypeError while binding the
call and no file is written (the body returning the written paths is
never entered). -/
theorem save_history_raises_type_error (file_path : Option String) :
    save_history file_path =
      Except.error "TypeError: got an unexpected keyword argument sensitive_data" := by
  cases file_path <;> rfl

/-- C3: when the oracle response has an empty action list (or one whose
actions all dump to the empty object) and the retry with the appended
clarification message is empty in the same sense, the returned output
carries exactly the one synthesized done action flagged unsuccessful, and
exactly the two oracle calls were made; the function is total, so no
exception is raised on this path. -/
theorem empty_action_retry_synthesizes_done (oracle : List MsgE → AgentOutputE)
    (input : List MsgE)
    (h1 : emptyActionOutput (oracle input) = true)
    (h2 : emptyActionOutput (oracle (input ++ [clarificationMessage])) = true) :
    (get_model_output_with_retry oracle input).1.action = [noopDoneAction] ∧
    (get_model_output_with_retry oracle input).2 = [input, input ++ [clarificationMessage]] ∧
    noopDoneAction.doneParams = some { success := false, text := "No next action returned by LLM!" } := by
  refine ⟨?_, ?_, rfl⟩ <;> simp [get_model_output_with_retry, h1, h2]

/-- A concrete step environment whose phases all succeed and whose action
execution returns one empty result record. -/
def stepEnvOkE : StepEnv :=
  { prepare := Except.ok (),
    decide := Except.ok {},
    act := fun _ => Except.ok [{}] }

/-- C6 counterexample: the original claim says the step counter
increments by exactly one even for an attempt that times out, but
_finalize returns before the increment when last_result is empty, so a
first step cancelled by the step timeout before any result was recorded
leaves the counter unchanged (the run-loop timeout handler records the
failure without touching the counter). -/
theorem step_counter_timeout_counterexample :
    ¬ ((run_step_timeout_handler (stepCancelled stepEnvOkE {} CancelPoint.duringDecide) 180 0).n_steps =
       ({} : AgentStateE).n_steps + 1) := by
  decide

/-- C6 amended: the step counter increments by exactly one for every
attempt that completes, whether the phases succeed or an exception is
captured by the error phase; an attempt cancelled by the step-level
timeout increments the counter only when a last result was already
recorded, and in particular leaves it unchanged when the cancellation
arrives before any result exists. -/
theorem step_counter_increment (env : StepEnv) (s : AgentStateE)
    (hact : ∀ acts rs, env.act acts = Except.ok rs → rs ≠ []) :
    (stepFn env s).n_steps = s.n_steps + 1 ∧
    (∀ p t k, p ≠ CancelPoint.duringPostProcess → listTruthy s.last_result = false →
      (run_step_timeout_handler (stepCancelled env s p) t k).n_steps = s.n_steps) := by
  constructor
  · unfold stepFn
    cases hp : env.prepare with
    | error e => simp [hp, finalize, handle_step_error, listTruthy]
    | ok u =>
      cases hd : env.decide with
      | error e => simp [hp, hd, finalize, handle_step_error, listTruthy]
      | ok out =>
        cases ha : env.act out.action with
        | error e => simp [hp, hd, ha, finalize, handle_step_error, listTruthy]
        | ok rs =>
          have hne := hact out.action rs ha
          simp [hp, hd, ha, finalize, listTruthy, List.isEmpty_iff, hne]
  · intro p t k hp hl
    cases p with
    | duringPrepare => simp [stepCancelled, finalize, hl, run_step_timeout_handler]
    | duringDecide => simp [stepCancelled, finalize, hl, run_step_timeout_handler]
    | duringAct => simp [stepCancelled, finalize, hl, run_step_timeout_handler]
    | duringPostProcess => exact absurd rfl hp

/-- C6 witness: a concrete completed attempt increments the counter by
one, and a concrete attempt cancelled during the act phase with no prior
result leaves it unchanged. -/
theorem step_counter_increment_witness :
    (stepFn stepEnvOkE {}).n_steps = ({} : AgentStateE).n_steps + 1 ∧
    (run_step_timeout_handler (stepCancelled stepEnvOkE {} CancelPoint.duringAct) 5 0).n_steps =
      ({} : AgentStateE).n_steps :=
  ⟨(step_counter_increment stepEnvOkE {}
      (by intro acts rs h; cases h; simp)).1,
   (step_counter_increment stepEnvOkE {}
      (by intro acts rs h; cases h; simp)).2 CancelPoint.duringAct 5 0 (by decide) rfl⟩

/-- The query/fragment portion starts no later than the end of the URL. -/
theorem afterPathStart_le (u : List Char) : afterPathStart u ≤ u.length := by
  unfold afterPathStart
  cases pyFindChar '?' u <;> cases pyFindChar '#' u <;> simp [Nat.min_le_left]

/-- C8 counterexample: the original claim says every URL whose
query/fragment portion exceeds the limit is truncated and hash-suffixed,
but replace_url keeps the original unless the shortened form is strictly
shorter, so a portion exceeding the limit of 25 by one character is left
unchanged. -/
theorem url_shortening_counterexample :
    25 < ((String.toList "https://a.b/c?aaaaaaaaaaaaaaaaaaaaaaaaa").drop
        (afterPathStart (String.toList "https://a.b/c?aaaaaaaaaaaaaaaaaaaaaaaaa"))).length ∧
    (replace_url 25 md5Hex7 (String.toList "https://a.b/c?aaaaaaaaaaaaaaaaaaaaaaaaa")).1 =
      String.toList "https://a.b/c?aaaaaaaaaaaaaaaaaaaaaaaaa" := by
  constructor <;> decide

/-- C8 amended: with a hash of output length 7, a URL whose
query/fragment portion is within the limit is unchanged; one whose
portion exceeds the limit by at most 10 characters (the ellipsis plus the
hash) is also unchanged, because the shortened form would not be strictly
shorter; and one whose portion exceeds the limit by more than 10
characters is replaced by the URL truncated at the limit, an ellipsis,
and the 7-character content hash of the entire query/fragment portion. -/
theorem url_shortening_amended (limit : Nat) (md5hex7 : List Char → List Char)
    (u : List Char) (hlen : ∀ s, (md5hex7 s).length = 7) :
    ((u.drop (afterPathStart u)).length ≤ limit → (replace_url limit md5hex7 u).1 = u) ∧
    (limit < (u.drop (afterPathStart u)).length →
      (u.drop (afterPathStart u)).length ≤ limit + 10 →
      (replace_url limit md5hex7 u).1 = u) ∧
    (limit + 10 < (u.drop (afterPathStart u)).length →
      (replace_url limit md5hex7 u).1 =
        u.take (afterPathStart u) ++ (u.drop (afterPathStart u)).take limit ++
          String.toList "..." ++ md5hex7 (u.drop (afterPathStart u))) := by
  have hstart := afterPathStart_le u
  have hdroplen : (u.drop (afterPathStart u)).length = u.length - afterPathStart u :=
    List.length_drop _ _
  have hdots : (String.toList "...").length = 3 := rfl
  refine ⟨fun h => ?_, fun h1 h2 => ?_, fun h => ?_⟩
  · simp only [replace_url]
    split
    · rfl
    · next hc => exact absurd h hc
  · simp only [replace_url]
    split
    · rfl
    · split
      · rfl
      · split
        · next hlt =>
          exfalso
          have t1 : (u.take (afterPathStart u)).length = afterPathStart u := by
            rw [List.length_take]
            exact min_eq_left hstart
          have t2 : ((u.drop (afterPathStart u)).take limit).length = limit := by
            rw [List.length_take]
            exact min_eq_left (by omega)
          simp only [List.length_append, t1, t2, hlen, hdots] at hlt
          omega
        · rfl
  · simp only [replace_url]
    split
    · next hc => exact absurd hc (by omega)
    · split
      · next hc =>
        exfalso
        rw [List.isEmpty_iff] at hc
        rw [hc] at h
        simp at h
      · split
        · rfl
        · next hnlt =>
          exfalso
          apply hnlt
          have t1 : (u.take (afterPathStart u)).length = afterPathStart u := by
            rw [List.length_take]
            exact min_eq_left hstart
          have t2 : ((u.drop (afterPathStart u)).take limit).length = limit := by
            rw [List.length_take]
            exact min_eq_left (by omega)
          simp only [List.length_append, t1, t2, hlen, hdots]
          omega

/-- C8 witness: a concrete URL with a 40-character query portion against
the limit of 25 is shortened to the truncated query plus ellipsis and
hash, and a concrete URL with a short query is unchanged. -/
theorem url_shortening_amended_witness :
    25 + 10 < ((String.toList "https://a.b/c?aaaaaaaaaaaaaaaaaaaaaaaaaaaaaaaaaaaaaaa").drop
        (afterPathStart (String.toList "https://a.b/c?aaaaaaaaaaaaaaaaaaaaaaaaaaaaaaaaaaaaaaa"))).length ∧
    (replace_url 25 md5Hex7 (String.toList "https://a.b/c?aaaaaaaaaaaaaaaaaaaaaaaaaaaaaaaaaaaaaaa")).1 =
      (String.toList "https://a.b/c?aaaaaaaaaaaaaaaaaaaaaaaaaaaaaaaaaaaaaaa").take 13 ++
        ((String.toList "https://a.b/c?aaaaaaaaaaaaaaaaaaaaaaaaaaaaaaaaaaaaaaa").drop 13).take 25 ++
        String.toList "..." ++
        md5Hex7 ((String.toList "https://a.b/c?aaaaaaaaaaaaaaaaaaaaaaaaaaaaaaaaaaaaaaa").drop 13) ∧
    (replace_url 25 md5Hex7 (String.toList "https://a.b/c?q=1")).1 = String.toList "https://a.b/c?q=1" := by
  refine ⟨by decide, ?_, ?_⟩
  · have h := (url_shortening_amended 25 md5Hex7
      (String.toList "https://a.b/c?aaaaaaaaaaaaaaaaaaaaaaaaaaaaaaaaaaaaaaa")
      (fun s => by simp [md5Hex7, toHex7])).2.2 (by decide)
    have hs : afterPathStart (String.toList "https://a.b/c?aaaaaaaaaaaaaaaaaaaaaaaaaaaaaaaaaaaaaaa") = 13 := by decide
    rw [hs] at h
    exact h
  · exact (url_shortening_amended 25 md5Hex7 (String.toList "https://a.b/c?q=1")
      (fun s => by simp [md5Hex7, toHex7])).1 (by decide)

/-- The tab migration leaves a freshly serialized tab unchanged: current
dumps carry no page_id keys. -/
theorem migrateTab_dump (t : TabInfoH) : migrateTab (tabToDict t) = tabToDict t := by
  simp [migrateTab, tabToDict]

/-- A freshly serialized interacted element misses no required field. -/
theorem interactedMissing_dump (e : InteractedH) :
    interactedMissingRequired (interactedToDump e) = false := by
  simp [interactedMissingRequired, interactedToDump]

/-- The element migration leaves a freshly serialized element unchanged. -/
theorem migrateElement_dump (e : InteractedH) :
    migrateElement (interactedToDump e) = interactedToDump e := by
  simp [migrateElement, interactedMissing_dump]

/-- The legacy migration pass leaves a freshly serialized step record
unchanged. -/
theorem migrateItem_dump (h : AgentHistoryH) :
    migrateItem (agent_history_dump h) = agent_history_dump h := by
  have htabs : (h.state.tabs.map tabToDict).map migrateTab = h.state.tabs.map tabToDict := by
    rw [List.map_map]
    exact List.map_congr_left (fun t _ => migrateTab_dump t)
  have hels : ((h.state.interacted_element.map (fun o => o.map interactedToDump)).map
      (fun o => o.map migrateElement)) =
      h.state.interacted_element.map (fun o => o.map interactedToDump) := by
    rw [List.map_map]
    refine List.map_congr_left (fun o _ => ?_)
    cases o <;> simp [migrateElement_dump]
  simp [migrateItem, agent_history_dump, stateToDict, htabs, hels]

/-- Elementwise validation of a serialized list recovers the original
elements. -/
theorem mapE_map_ok {α β : Type} (f : β → Except String α) (g : α → β) (l : List α)
    (h : ∀ x ∈ l, f (g x) = Except.ok x) : mapE f (l.map g) = Except.ok l := by
  induction l with
  | nil => rfl
  | cons x xs ih =>
    simp only [List.map_cons, mapE]
    rw [h x (List.mem_cons_self x xs), ih (fun y hy => h y (List.mem_cons_of_mem x hy))]

/-- Elementwise validation that fixes every element of a list recovers
the list. -/
theorem mapE_id_ok {α : Type} (f : α → Except String α) (l : List α)
    (h : ∀ x ∈ l, f x = Except.ok x) : mapE f l = Except.ok l := by
  induction l with
  | nil => rfl
  | cons x xs ih =>
    simp only [mapE]
    rw [h x (List.mem_cons_self x xs), ih (fun y hy => h y (List.mem_cons_of_mem x hy))]

/-- Validating a serialized tab recovers the tab. -/
theorem validateTab_dump (t : TabInfoH) : validateTab (tabToDict t) = Except.ok t := by
  simp [validateTab, tabToDict]

/-- Validating a serialized interacted element recovers the element. -/
theorem validateInteracted_dump (e : InteractedH) :
    validateInteracted (interactedToDump e) = Except.ok e := by
  simp [validateInteracted, interactedToDump]

/-- Validating a serialized snapshot reference recovers it. -/
theorem validateState_dump (s : BrowserStateHistoryH) :
    validateState (stateToDict s) = Except.ok s := by
  have htabs : mapE validateTab (s.tabs.map tabToDict) = Except.ok s.tabs :=
    mapE_map_ok validateTab tabToDict s.tabs (fun t _ => validateTab_dump t)
  have hels : mapE (fun o =>
      match o with
      | none => Except.ok (none : Option InteractedH)
      | some e => (validateInteracted e).map some)
      (s.interacted_element.map (fun o => o.map interactedToDump)) =
      Except.ok s.interacted_element := by
    refine mapE_map_ok _ _ s.interacted_element (fun o _ => ?_)
    cases o with
    | none => rfl
    | some e => simp [validateInteracted_dump e, Except.map]
  simp [validateState, stateToDict, htabs, hels]

/-- Validating the dump of a constructible ActionResult whose is_done is
not None recovers the result. -/
theorem validateActionResultDump_ok (r : ActionResult)
    (h1 : r.is_done ≠ none) (h2 : mkActionResult r = Except.ok r) :
    validateActionResultDump r = Except.ok r := by
  cases hr : r.is_done with
  | none => exact absurd hr h1
  | some b =>
    have he : ({ r with is_done := some ((some b).getD false) } : ActionResult) = r := by
      cases r
      simp_all
    rw [validateActionResultDump, hr]
    rw [he]
    exact h2

/-- Loading the dump of one step record recovers the record, provided its
results are constructible and carry a non-None is_done. -/
theorem loadHistoryItem_dump (h : AgentHistoryH)
    (hres : ∀ r ∈ h.result, r.is_done ≠ none ∧ mkActionResult r = Except.ok r) :
    loadHistoryItem (agent_history_dump h) = Except.ok h := by
  have hr : mapE validateActionResultDump h.result = Except.ok h.result :=
    mapE_id_ok validateActionResultDump h.result
      (fun r hrm => validateActionResultDump_ok r (hres r hrm).1 (hres r hrm).2)
  cases hmo : h.model_output with
  | none =>
    simp [loadHistoryItem, agent_history_dump, hmo, hr, validateState_dump]
    rw [← hmo]
  | some o =>
    simp [loadHistoryItem, agent_history_dump, hmo, hr, validateState_dump,
      validateOutputDump, agentOutputDump, Except.map]
    rw [← hmo]

/-- C7 counterexample: the original round-trip claim fails on a history
with no legacy fields: a step whose single ActionResult has is_done None
serializes with the key omitted (exclude_none), and loading restores the
field default False, so the reloaded step records differ from the
originals. -/
theorem history_roundtrip_counterexample :
    load_history_list (agent_history_list_dump
      { history := [{ model_output := none,
                      result := [{ is_done := none }],
                      state := { url := "", title := "", tabs := [],
                                 interacted_element := [], screenshot_path := none },
                      metadata := none }] }) =
      Except.ok { history := [{ model_output := none,
                                result := [{ is_done := some false }],
                                state := { url := "", title := "", tabs := [],
                                           interacted_element := [], screenshot_path := none },
                                metadata := none }],
                  usage := none } ∧
    ([{ model_output := none,
        result := [{ is_done := some false }],
        state := { url := "", title := "", tabs := [],
                   interacted_element := [], screenshot_path := none },
        metadata := none }] : List AgentHistoryH) ≠
      [{ model_output := none,
         result := [{ is_done := none }],
         state := { url := "", title := "", tabs := [],
                    interacted_element := [], screenshot_path := none },
         metadata := none }] :=
  ⟨rfl, by decide⟩

/-- C7 amended: loading the serialized form of a history reconstructs the
same step records (model outputs, results, state, metadata) for every
history with no legacy-format fields whose ActionResults are
constructible and have a non-None is_done; a result with is_done None
reloads with the default False instead, and the usage summary is not
serialized (the reloaded list carries none). -/
theorem history_roundtrip_amended (h : AgentHistoryListH)
    (hres : ∀ item ∈ h.history, ∀ r ∈ item.result,
      r.is_done ≠ none ∧ mkActionResult r = Except.ok r) :
    load_history_list (agent_history_list_dump h) =
      Except.ok { history := h.history, usage := none } := by
  have hmig : migrate_legacy_format (agent_history_list_dump h) = agent_history_list_dump h := by
    simp only [migrate_legacy_format, agent_history_list_dump]
    rw [List.map_map]
    exact congrArg _ (List.map_congr_left (fun item _ => migrateItem_dump item))
  have hload : mapE loadHistoryItem (h.history.map agent_history_dump) = Except.ok h.history :=
    mapE_map_ok loadHistoryItem agent_history_dump h.history
      (fun item hm => loadHistoryItem_dump item (hres item hm))
  simp only [load_history_list, agent_history_list_dump] at *
  rw [hmig, hload]

/-- C7 witness: a concrete one-step history with a model output, a tab,
an interacted element, metadata and a constructible result with is_done
False round-trips to the same step records. -/
theorem history_roundtrip_amended_witness :
    load_history_list (agent_history_list_dump
      { history := [{ model_output := some { evaluation_previous_goal := some "ok",
                                             memory := some "m", next_goal := some "g",
                                             action := [[("click", "2")]] },
                      result := [{ is_done := some false, error := some "late" }],
                      state := { url := "https://x.y", title := "T",
                                 tabs := [{ tab_id := "0001", url := "https://x.y", title := "T" }],
                                 interacted_element :=
                                   [some { node_id := 4, backend_node_id := 9, frame_id := none,
                                           node_type := 1, node_value := "", node_name := "DIV",
                                           bounds := none, x_path := "/div", element_hash := 77 }],
                                 screenshot_path := some "shot.png" },
                      metadata := some { step_start_time := 3, step_end_time := 8, step_number := 1 } }],
        usage := some 5 }) =
      Except.ok { history := [{ model_output := some { evaluation_previous_goal := some "ok",
                                                       memory := some "m", next_goal := some "g",
                                                       action := [[("click", "2")]] },
                                result := [{ is_done := some false, error := some "late" }],
                                state := { url := "https://x.y", title := "T",
                                           tabs := [{ tab_id := "0001", url := "https://x.y", title := "T" }],
                                           interacted_element :=
                                             [some { node_id := 4, backend_node_id := 9, frame_id := none,
                                                     node_type := 1, node_value := "", node_name := "DIV",
                                                     bounds := none, x_path := "/div", element_hash := 77 }],
                                           screenshot_path := some "shot.png" },
                                metadata := some { step_start_time := 3, step_end_time := 8, step_number := 1 } }],
                  usage := none } := by
  apply history_roundtrip_amended
  intro item hi r hr
  rw [List.mem_singleton] at hi
  subst hi
  simp only [List.mem_singleton] at hr
  subst hr
  exact ⟨by simp, rfl⟩

/-- Loop-level form of the batch-stop property: from any position j at or
before the first stale position i, the multi_act loop executes the
actions up to i, appends the single page-changed result there, and stops;
no position from i on is invoked. -/
theorem multi_act_loop_page_change (env : MultiActEnv) (actions : List ActionModelE)
    (i idx : Nat) (a : ActionModelE) (res : Nat → ActionResult)
    (h0 : 0 < i) (hlen : i < actions.length)
    (ha : actions[i]? = some a)
    (hnotdone : a.doneParams = none)
    (hidx : a.getIndex = some idx)
    (hdiff : (selLookup env.cached idx).map (fun e => e.parent_branch_hash) ≠
             (selLookup (env.fresh i) idx).map (fun e => e.parent_branch_hash))
    (hrun : env.stopped_or_paused = false)
    (hprev : ∀ j, 0 < j → j < i → ∀ b, actions[j]? = some b →
      b.doneParams = none ∧
      ∀ k, b.getIndex = some k →
        (selLookup env.cached k).map (fun e => e.parent_branch_hash) =
          (selLookup (env.fresh j) k).map (fun e => e.parent_branch_hash) ∧
        hashSubset (env.fresh j) env.cached = true)
    (hres : ∀ j, j < i → env.act j = Except.ok (res j) ∧
      optBoolTruthy (res j).is_done = false ∧ strTruthy (res j).error = false) :
    ∀ (suffix : List ActionModelE) (j : Nat), j ≤ i → actions.drop j = suffix →
      multi_act_loop env true actions actions.length (enumFromE j suffix) =
        (Except.ok ((List.range' j (i - j)).map res ++ [pageChangedResult actions i]),
         List.range' j (i - j)) := by
  intro suffix
  induction suffix with
  | nil =>
    intro j hji hdrop
    exfalso
    rw [List.drop_eq_nil_iff] at hdrop
    omega
  | cons b bs ih =>
    intro j hji hdrop
    have hgetj : actions[j]? = some b := by
      have h1 : (actions.drop j)[0]? = some b := by rw [hdrop]; simp
      rw [List.getElem?_drop] at h1
      simpa using h1
    have hdropsucc : actions.drop (j + 1) = bs := by
      have h2 := List.drop_drop 1 j actions
      rw [← h2, hdrop]
      rfl
    rcases Nat.lt_or_ge j i with hjlt | hjge
    · -- j < i : the action at j executes and the loop continues
      obtain ⟨hact, hdone, herr⟩ := hres j hjlt
      have hc1 : ¬ (0 < j ∧ b.doneParams ≠ none) := by
        rintro ⟨hpos, hdp⟩
        exact hdp ((hprev j hpos hjlt b hgetj).1)
      have hstale : staleCheck env true actions actions.length j b = none := by
        by_cases hz : j = 0
        · simp [staleCheck, hz]
        · cases hgi : b.getIndex with
          | none => simp [staleCheck, hz, hgi]
          | some k =>
            obtain ⟨heq, hsub⟩ :=
              (hprev j (Nat.pos_of_ne_zero hz) hjlt b hgetj).2 k hgi
            simp [staleCheck, hz, hgi, heq, hsub]
      have hlast : decide (j = actions.length - 1) = false := by
        have : j ≠ actions.length - 1 := by omega
        simp [this]
      simp only [enumFromE, multi_act_loop]
      rw [if_neg hc1, hstale]
      simp only [hrun, Bool.false_eq_true, if_false, hact, hdone, herr, hlast,
        Bool.or_self, Bool.or_false]
      rw [ih (j + 1) (by omega) hdropsucc]
      have hrange : i - j = (i - (j + 1)) + 1 := by omega
      rw [hrange, List.range'_succ]
      simp

    · -- j = i : the stale position is reached and the batch stops
      have hj : j = i := le_antisymm hji hjge
      subst hj
      have hab : a = b := by
        rw [ha] at hgetj
        exact Option.some.inj hgetj
      subst hab
      have hc1 : ¬ (0 < j ∧ a.doneParams ≠ none) := fun h => h.2 hnotdone
      have hstaleSome : staleCheck env true actions actions.length j a =
          some (pageChangedResult actions j) := by
        have hz : ¬ j = 0 := by omega
        simp [staleCheck, hz, hidx, hdiff]
      simp only [enumFromE, multi_act_loop]
      rw [if_neg hc1, hstaleSome]
      simp [Nat.sub_self]

/-- C4: when the batch executor reaches a position i greater than 0 whose
action targets an element index, and the parent-branch hash of that index
differs between the selector map cached at batch start and the fresh
observation (including one side being absent), multi_act returns the
results of the actions executed before i followed by exactly one
synthetic page-changed result, and invokes exactly the actions before i,
never the remaining ones. Reaching position i is expressed by the
hypotheses on the earlier positions: no done action, no staleness stop,
and non-terminal, error-free results. -/
theorem multi_act_page_change_stop (env : MultiActEnv) (actions : List ActionModelE)
    (i idx : Nat) (a : ActionModelE) (res : Nat → ActionResult)
    (h0 : 0 < i) (hlen : i < actions.length)
    (ha : actions[i]? = some a)
    (hnotdone : a.doneParams = none)
    (hidx : a.getIndex = some idx)
    (hdiff : (selLookup env.cached idx).map (fun e => e.parent_branch_hash) ≠
             (selLookup (env.fresh i) idx).map (fun e => e.parent_branch_hash))
    (hrun : env.stopped_or_paused = false)
    (hprev : ∀ j, 0 < j → j < i → ∀ b, actions[j]? = some b →
      b.doneParams = none ∧
      ∀ k, b.getIndex = some k →
        (selLookup env.cached k).map (fun e => e.parent_branch_hash) =
          (selLookup (env.fresh j) k).map (fun e => e.parent_branch_hash) ∧
        hashSubset (env.fresh j) env.cached = true)
    (hres : ∀ j, j < i → env.act j = Except.ok (res j) ∧
      optBoolTruthy (res j).is_done = false ∧ strTruthy (res j).error = false) :
    multi_act env actions true =
      (Except.ok ((List.range i).map res ++ [pageChangedResult actions i]),
       List.range i) := by
  have h := multi_act_loop_page_change env actions i idx a res h0 hlen ha hnotdone hidx
    hdiff hrun hprev hres actions 0 (by omega) rfl
  rw [List.range_eq_range']
  simpa using h

/-- Concrete three-action batch for the C4 witness: the fresh observation
changes the parent-branch hash of index 2 after the first action. -/
def mactEnvW : MultiActEnv :=
  { cached := [(1, { element_hash := 11, parent_branch_hash := 10 }),
               (2, { element_hash := 12, parent_branch_hash := 20 }),
               (3, { element_hash := 13, parent_branch_hash := 30 })],
    fresh := fun _ => [(1, { element_hash := 11, parent_branch_hash := 10 }),
                       (2, { element_hash := 12, parent_branch_hash := 99 }),
                       (3, { element_hash := 13, parent_branch_hash := 30 })],
    stopped_or_paused := false,
    act := fun _ => Except.ok {} }

/-- The three index-based actions of the C4 witness batch. -/
def actionsW : List ActionModelE :=
  [{ dump_keys := ["click"], getIndex := some 1 },
   { dump_keys := ["click"], getIndex := some 2 },
   { dump_keys := ["input_text"], getIndex := some 3 }]

/-- C4 witness: in the concrete batch of three index-based actions where
the element identity at the second target changes after action one, the
executor returns the first result followed by exactly one synthetic
page-changed result and invokes only position 0. -/
theorem multi_act_page_change_stop_witness :
    multi_act mactEnvW actionsW true =
      (Except.ok [({} : ActionResult), pageChangedResult actionsW 1], [0]) := by
  have h := multi_act_page_change_stop mactEnvW actionsW 1 2
    { dump_keys := ["click"], getIndex := some 2 } (fun _ => {})
    (by decide) (by decide) rfl rfl rfl (by decide) rfl
    (fun j hj1 hj2 => absurd hj2 (by omega))
    (fun j hj => ⟨rfl, rfl, rfl⟩)
  simpa using h

/-- When every attempt of the replay retry loop fails with the same
error, the loop consumes every remaining attempt and ends in the skip or
raise outcome selected by skip_failures, with the message naming the
configured bound. -/
theorem rerun_attempts_all_fail (envs : Nat → ReplayEnv) (item : ReplayItemE)
    (R : Nat) (skip : Bool) (name : String) (emsg : String)
    (hfail : ∀ k, execute_history_step (envs k) item = Except.error emsg) :
    ∀ left k, 1 ≤ left →
      rerun_item_attempts envs item R skip name k left =
        ((if skip then
            ReplayOutcome.failuresSkipped (name ++ " failed after " ++ toString R ++ " attempts: " ++ emsg)
          else
            ReplayOutcome.raised
              { error := some (name ++ " failed after " ++ toString R ++ " attempts: " ++ emsg) }
              (name ++ " failed after " ++ toString R ++ " attempts: " ++ emsg)), left) := by
  intro left
  induction left with
  | zero => intro k h; omega
  | succ n ih =>
    intro k _
    by_cases hn : n = 0
    · subst hn
      cases skip <;> simp [rerun_item_attempts, hfail k]
    · simp only [rerun_item_attempts, hfail k]
      rw [if_neg hn, ih (k + 1) (by omega)]

/-- A replayed step whose first recorded element has no current element
with the same element hash fails its attempt with the rebinding
ValueError, provided the current selector map is nonempty. -/
theorem execute_history_step_rebind_fail (env : ReplayEnv) (item : ReplayItemE)
    (a : ActionModelE) (acts : List ActionModelE) (h0 : DomInteracted)
    (hmo : item.model_output = some (a :: acts))
    (hint : item.interacted.get? 0 = some (some h0))
    (hne : env.selector_map ≠ [])
    (hnomatch : ∀ p ∈ env.selector_map, p.2.element_hash ≠ h0.element_hash) :
    execute_history_step env item = Except.error (couldNotFindMsg 0) := by
  have hisempty : env.selector_map.isEmpty = false := by
    cases hsel : env.selector_map with
    | nil => exact absurd hsel hne
    | cons p ps => rfl
  have hfind : env.selector_map.find? (fun p => p.2.element_hash = h0.element_hash) = none := by
    rw [List.find?_eq_none]
    intro p hp
    simp [hnomatch p hp]
  rw [List.get?_eq_getElem?] at hint
  simp [execute_history_step, hmo, rebindActions, hint, update_action_indices, hisempty, hfind]

/-- C5 counterexample: the original claim says a step whose historical
element cannot be rebound raises immediately with no retry attempts
consumed, but the retry loop of rerun_history catches the rebinding
ValueError like any other exception: with the default bound of three it
runs three attempts before raising. -/
theorem replay_rebind_counterexample :
    (rerun_history_item
        (fun _ => { selector_map := [(0, { element_hash := 99, parent_branch_hash := 7 })],
                    mact := { cached := [], fresh := fun _ => [], stopped_or_paused := false,
                              act := fun _ => Except.ok {} } })
        { model_output := some [{ getIndex := some 5 }],
          interacted := [some { element_hash := 42 }] }
        3 false "Step 1").2 = 3 ∧
    (rerun_history_item
        (fun _ => { selector_map := [(0, { element_hash := 99, parent_branch_hash := 7 })],
                    mact := { cached := [], fresh := fun _ => [], stopped_or_paused := false,
                              act := fun _ => Except.ok {} } })
        { model_output := some [{ getIndex := some 5 }],
          interacted := [some { element_hash := 42 }] }
        3 false "Step 1").1 =
      ReplayOutcome.raised
        { error := some "Step 1 failed after 3 attempts: Could not find matching element 0 in current page" }
        "Step 1 failed after 3 attempts: Could not find matching element 0 in current page" := by
  constructor <;> rfl

/-- C5 amended: a replayed step whose historical element cannot be
rebound by identity hash fails each attempt with the rebinding
ValueError, which the retry loop treats like any other failure: it
consumes all max_retries attempts, and after the last it raises
RuntimeError (appending an error result) only when skip_failures is
false, otherwise the failure is skipped. Transient execution errors go
through the same loop and bound. -/
theorem replay_rebind_failure_retried (envs : Nat → ReplayEnv) (item : ReplayItemE)
    (a : ActionModelE) (acts : List ActionModelE) (h0 : DomInteracted)
    (R : Nat) (skip : Bool) (name : String)
    (hmo : item.model_output = some (a :: acts))
    (hint : item.interacted.get? 0 = some (some h0))
    (hsel : ∀ k, (envs k).selector_map ≠ [] ∧
      ∀ p ∈ (envs k).selector_map, p.2.element_hash ≠ h0.element_hash)
    (hR : 1 ≤ R) :
    rerun_history_item envs item R skip name =
      ((if skip then
          ReplayOutcome.failuresSkipped (name ++ " failed after " ++ toString R ++ " attempts: " ++ couldNotFindMsg 0)
        else
          ReplayOutcome.raised
            { error := some (name ++ " failed after " ++ toString R ++ " attempts: " ++ couldNotFindMsg 0) }
            (name ++ " failed after " ++ toString R ++ " attempts: " ++ couldNotFindMsg 0)), R) := by
  unfold rerun_history_item
  rw [hmo]
  exact rerun_attempts_all_fail envs item R skip name (couldNotFindMsg 0)
    (fun k => execute_history_step_rebind_fail (envs k) item a acts h0 hmo hint
      (hsel k).1 (hsel k).2) R 0 hR

/-- C5 witness: the amended behavior at a concrete one-action item whose
recorded element hash matches nothing, with two retries and skipping
enabled: both attempts run, then the failure is skipped. -/
theorem replay_rebind_failure_retried_witness :
    rerun_history_item
        (fun _ => { selector_map := [(1, { element_hash := 8, parent_branch_hash := 7 })],
                    mact := { cached := [], fresh := fun _ => [], stopped_or_paused := false,
                              act := fun _ => Except.ok {} } })
        { model_output := some [{ getIndex := some 4 }],
          interacted := [some { element_hash := 5 }] }
        2 true "Step 2" =
      (ReplayOutcome.failuresSkipped "Step 2 failed after 2 attempts: Could not find matching element 0 in current page", 2) := by
  have h := replay_rebind_failure_retried
    (fun _ => { selector_map := [(1, { element_hash := 8, parent_branch_hash := 7 })],
                mact := { cached := [], fresh := fun _ => [], stopped_or_paused := false,
                          act := fun _ => Except.ok {} } })
    { model_output := some [{ getIndex := some 4 }],
      interacted := [some { element_hash := 5 }] }
    { getIndex := some 4 } [] { element_hash := 5 } 2 true "Step 2"
    rfl rfl
    (fun k => ⟨by simp, by intro p hp; simp at hp; rw [hp]; simp⟩)
    (by omega)
  simpa using h

/-- C3 witness: a concrete oracle that always returns no actions leads to
the synthesized unsuccessful done action after one clarification
retry. -/
theorem empty_action_retry_synthesizes_done_witness :
    emptyActionOutput ((fun _ => ({ action := [] } : AgentOutputE)) ([] : List MsgE)) = true ∧
    (get_model_output_with_retry (fun _ => ({ action := [] } : AgentOutputE)) []).1.action = [noopDoneAction] ∧
    (get_model_output_with_retry (fun _ => ({ action := [] } : AgentOutputE)) []).2 = [[], [clarificationMessage]] :=
  ⟨rfl,
   (empty_action_retry_synthesizes_done (fun _ => { action := [] }) [] rfl rfl).1,
   (empty_action_retry_synthesizes_done (fun _ => { action := [] }) [] rfl rfl).2.1⟩
